import Mathlib

/-
  Verification development for the wicked.portal-auth authorization server.

  The definitions below are a shallow embedding of the OAuth2 orchestration
  engine: src/common/utils-oauth2.ts, src/common/generic-router.ts,
  src/common/grant-manager.ts and src/kong-oauth2/oauth2.ts.  JavaScript
  strings are embedded as Lean String (with character-level helpers mirroring
  split / join / startsWith / indexOf), JavaScript "string or array or null"
  scope values as the inductive JsScope, and asynchronous callback chains as
  explicit Except / outcome datatypes.  External collaborators (the portal
  API, the gateway, the identity provider) are passed in as explicit oracle
  arguments.
-/

namespace PortalAuth

/-! ## Character-level string primitives (JavaScript semantics) -/

/-- JavaScript `String.prototype.startsWith`: does the second list start with
the first list (the searched-for prefix comes first)? -/
def charsStartsWith : List Char → List Char → Bool
  | [], _ => true
  | _ :: _, [] => false
  | p :: ps, c :: cs => p = c && charsStartsWith ps cs

/-- JavaScript `s.split(' ')` at character level: split on every space
character, keeping empty segments (so splitting the empty list yields one
empty segment, like JavaScript). -/
def splitSpaceChars : List Char → List (List Char)
  | [] => [[]]
  | c :: rest =>
    if c = ' ' then [] :: splitSpaceChars rest
    else
      match splitSpaceChars rest with
      | [] => [[c]]
      | t :: ts => (c :: t) :: ts

/-- JavaScript first index of a character, `none` when absent
(mirrors `indexOf` returning `-1`). -/
def charsFindIdx (ch : Char) : List Char → Option Nat
  | [] => none
  | c :: rest => if c = ch then some 0 else (charsFindIdx ch rest).map (· + 1)

/-- JavaScript `list.join(' ')` for strings. -/
def joinSpace : List String → String
  | [] => ""
  | [s] => s
  | s :: t :: rest => s ++ " " ++ joinSpace (t :: rest)

/-- `s.split(' ')` on Lean strings (JavaScript semantics, keeps empties). -/
def splitSpaceS (s : String) : List String :=
  (splitSpaceChars s.data).map String.mk

/-- The characters of the literal prefix `sub=` used by the router. -/
def subPrefixChars : List Char := ['s', 'u', 'b', '=']

/-- The characters of the synthetic-scope marker `wicked:`. -/
def wickedPrefixChars : List Char := ['w', 'i', 'c', 'k', 'e', 'd', ':']

/-! ## Error model

The helpers `failMessage` / `failOAuth` / `failError` live in
src/common/utils-fail.ts, which is not part of the provided sources. -/

/-- Modelled from the spec: utils-fail.ts is missing from src/.  Per spec
section 7 an OAuth2 failure (from `failOAuth`) carries an HTTP status and an
OAuth2 error code, while a user-facing message failure (from `failMessage`)
and a wrapped upstream failure (from `failError`) carry a status and a
message but no OAuth2 error code; the error handlers in generic-router.ts
and app.ts dispatch on the presence of the `oauthError` field. -/
structure FailErr where
  status : Nat
  oauthError : Option String
  message : String
deriving DecidableEq, Repr

/-- `failMessage(status, message, callback)`: user-facing failure, no OAuth2
error code. -/
def failMessage (status : Nat) (message : String) : FailErr :=
  ⟨status, none, message⟩

/-- `failOAuth(status, oauthError, description, callback)`: RFC 6749 style
failure carrying an OAuth2 error code. -/
def failOAuth (status : Nat) (err message : String) : FailErr :=
  ⟨status, some err, message⟩

/-- `failError(status, err, callback)`: wraps an upstream error; like
`failMessage` it carries no OAuth2 error code. -/
def failError (status : Nat) (message : String) : FailErr :=
  ⟨status, none, message⟩

/-! ## GenericOAuth2Router.extractUserId (generic-router.ts, lines 1422-1432) -/

/-- `extractUserId(authUserId)`: if the input does not start with `sub=`,
return it unchanged; otherwise strip the leading `sub=` and cut at the first
semicolon when one exists (`substring(4)` / `substring(4, semicolonIndex)`). -/
def extractUserId (authUserId : String) : String :=
  if ¬ charsStartsWith subPrefixChars authUserId.data then authUserId
  else
    match charsFindIdx ';' authUserId.data with
    | none => String.mk (authUserId.data.drop 4)
    | some i => String.mk ((authUserId.data.drop 4).take (i - 4))

/-! ### Helper lemmas about the string primitives -/

theorem charsStartsWith_iff (p s : List Char) :
    charsStartsWith p s = true ↔ ∃ rest, s = p ++ rest := by
  induction p generalizing s with
  | nil =>
    simp [charsStartsWith]
  | cons a ps ih =>
    cases s with
    | nil =>
      simp [charsStartsWith]
    | cons c cs =>
      simp only [charsStartsWith, Bool.and_eq_true, decide_eq_true_eq, ih,
        List.cons_append, List.cons.injEq]
      constructor
      · rintro ⟨rfl, rest, rfl⟩
        exact ⟨rest, rfl, rfl⟩
      · rintro ⟨rest, rfl, rfl⟩
        exact ⟨rfl, rest, rfl⟩

theorem charsFindIdx_eq_none_iff (ch : Char) (l : List Char) :
    charsFindIdx ch l = none ↔ ch ∉ l := by
  induction l with
  | nil => simp [charsFindIdx]
  | cons c cs ih =>
    by_cases hc : c = ch
    · subst hc
      simp [charsFindIdx]
    · simp [charsFindIdx, hc, ih, Option.map_eq_none, Ne.symm hc]

theorem charsFindIdx_spec (ch : Char) (l : List Char) (i : Nat)
    (h : charsFindIdx ch l = some i) :
    ∃ pre post, l = pre ++ ch :: post ∧ pre.length = i ∧ ch ∉ pre := by
  induction l generalizing i with
  | nil => simp [charsFindIdx] at h
  | cons c cs ih =>
    by_cases hc : c = ch
    · subst hc
      simp [charsFindIdx] at h
      exact ⟨[], cs, by simp, by simp only [List.length_nil]; omega, by simp⟩
    · simp only [charsFindIdx, if_neg hc] at h
      rcases Option.map_eq_some'.mp h with ⟨j, hj, rfl⟩
      rcases ih j hj with ⟨pre, post, hl, hlen, hmem⟩
      refine ⟨c :: pre, post, by simp [hl], by simp [hlen], ?_⟩
      simp only [List.mem_cons, not_or]
      exact ⟨fun hh => hc hh.symm, hmem⟩

theorem charsFindIdx_append_of_not_mem (ch : Char) (a b : List Char)
    (h : ch ∉ a) :
    charsFindIdx ch (a ++ b) = (charsFindIdx ch b).map (· + a.length) := by
  induction a with
  | nil => simp
  | cons c cs ih =>
    simp only [List.mem_cons, not_or] at h
    have hc : ¬ c = ch := fun hh => h.1 hh.symm
    rw [List.cons_append]
    simp only [charsFindIdx, if_neg hc]
    rw [ih h.2]
    cases hb : charsFindIdx ch b with
    | none => simp
    | some j =>
      simp only [Option.map_some', Option.some.injEq, List.length_cons]
      omega

/-- C10 helper: the literal prefix has length four and holds no semicolon. -/
theorem subPrefixChars_facts : subPrefixChars.length = 4 ∧ ';' ∉ subPrefixChars := by
  decide

/-- C10: `extractUserId` passes a malformed id through unchanged, strips a
leading `sub=` when there is no semicolon, and otherwise returns the part
strictly between `sub=` and the first semicolon. -/
theorem extractUserId_spec (s : String) :
    (charsStartsWith subPrefixChars s.data = false → extractUserId s = s) ∧
    (charsStartsWith subPrefixChars s.data = true → (';' : Char) ∉ s.data →
      extractUserId s = String.mk (s.data.drop 4)) ∧
    (charsStartsWith subPrefixChars s.data = true → (';' : Char) ∈ s.data →
      ∃ pre post, s.data = subPrefixChars ++ pre ++ ';' :: post ∧
        (';' : Char) ∉ pre ∧ extractUserId s = String.mk pre) := by
  refine ⟨?_, ?_, ?_⟩
  · intro h
    simp [extractUserId, h]
  · intro h hmem
    simp [extractUserId, h, (charsFindIdx_eq_none_iff ';' s.data).mpr hmem]
  · intro h hmem
    rcases (charsStartsWith_iff subPrefixChars s.data).mp h with ⟨rest, hrest⟩
    have hsub : (';' : Char) ∉ subPrefixChars := subPrefixChars_facts.2
    have hrestMem : (';' : Char) ∈ rest := by
      rcases List.mem_append.mp (hrest ▸ hmem) with h' | h'
      · exact absurd h' hsub
      · exact h'
    obtain ⟨j, hj⟩ : ∃ j, charsFindIdx ';' rest = some j := by
      cases hfind : charsFindIdx ';' rest with
      | none => exact absurd ((charsFindIdx_eq_none_iff ';' rest).mp hfind) (by simp [hrestMem])
      | some j => exact ⟨j, rfl⟩
    rcases charsFindIdx_spec ';' rest j hj with ⟨pre, post, hdecomp, hlen, hpre⟩
    have hfound : charsFindIdx ';' s.data = some (j + 4) := by
      rw [hrest, charsFindIdx_append_of_not_mem ';' subPrefixChars rest hsub, hj]
      simp [subPrefixChars_facts.1]
    refine ⟨pre, post, by rw [hrest, hdecomp]; exact (List.append_assoc _ _ _).symm, hpre, ?_⟩
    have hne : ¬ ¬ charsStartsWith subPrefixChars s.data = true := by simp [h]
    simp only [extractUserId, hne, if_false, hfound]
    have hdrop : s.data.drop 4 = rest := by
      rw [hrest, ← subPrefixChars_facts.1, List.drop_left]
    rw [hdrop, hdecomp, Nat.add_sub_cancel, ← hlen, List.take_left]

/-- Witness for C10 at concrete inputs. -/
theorem extractUserId_spec_witness :
    extractUserId "plainid" = "plainid" ∧
    extractUserId "sub=abc" = String.mk ("sub=abc".data.drop 4) ∧
    (∃ pre post, "sub=abc;namespace=ns".data = subPrefixChars ++ pre ++ ';' :: post ∧
      (';' : Char) ∉ pre ∧ extractUserId "sub=abc;namespace=ns" = String.mk pre) :=
  ⟨(extractUserId_spec "plainid").1 (by decide),
   (extractUserId_spec "sub=abc").2.1 (by decide) (by decide),
   (extractUserId_spec "sub=abc;namespace=ns").2.2 (by decide) (by decide)⟩

/-! ## Scope values

In the TypeScript sources a scope is `any`: a string, a string array, or
null/undefined.  `JsScope.nul` stands for the falsy non-string values. -/

inductive JsScope where
  | str : String → JsScope
  | arr : List String → JsScope
  | nul : JsScope
deriving DecidableEq, Repr

/-- The synthetic group scope `wicked:<group>`. -/
def wickedScope (g : String) : String := "wicked:" ++ g

/-- `GenericOAuth2Router.mergeUserGroupScope` (generic-router.ts, lines
1118-1146).  With no groups the scope is returned unchanged.  A non-empty
string scope gets the space-joined `wicked:` scopes appended after a space;
an array scope (or a falsy scope, which includes the empty string) gets the
`wicked:` scopes pushed onto the (possibly fresh empty) array. -/
def mergeUserGroupScope (scope : JsScope) (groups : Option (List String)) : JsScope :=
  match groups with
  | none => scope
  | some gs =>
    if gs = [] then scope
    else
      match scope with
      | .str s =>
        if s = "" then .arr (gs.map wickedScope)
        else .str (s ++ " " ++ joinSpace (gs.map wickedScope))
      | .arr a => .arr (a ++ gs.map wickedScope)
      | .nul => .arr (gs.map wickedScope)

/-- `GenericOAuth2Router.cleanupScopeString` (generic-router.ts, lines
1434-1440): a falsy scope string yields `[]`; otherwise split on spaces and
drop every entry starting with `wicked:`. -/
def cleanupScopeString (scopes : String) : List String :=
  if scopes = "" then []
  else (splitSpaceS scopes).filter (fun s => ¬ charsStartsWith wickedPrefixChars s.data)

/-! ### Lemmas about split and join -/

theorem string_data_append (a b : String) : (a ++ b).data = a.data ++ b.data := rfl

theorem splitSpaceChars_ne_nil (l : List Char) : splitSpaceChars l ≠ [] := by
  cases l with
  | nil => simp [splitSpaceChars]
  | cons c cs =>
    by_cases hc : c = ' '
    · simp [splitSpaceChars, hc]
    · simp only [splitSpaceChars, if_neg hc]
      cases splitSpaceChars cs <;> simp

theorem splitSpaceChars_append (a b : List Char) :
    splitSpaceChars (a ++ ' ' :: b) = splitSpaceChars a ++ splitSpaceChars b := by
  induction a with
  | nil => simp [splitSpaceChars]
  | cons c cs ih =>
    by_cases hc : c = ' '
    · simp [splitSpaceChars, hc, ih]
    · simp only [List.cons_append, splitSpaceChars, if_neg hc, List.append_eq]
      rw [ih]
      cases hcs : splitSpaceChars cs with
      | nil => exact absurd hcs (splitSpaceChars_ne_nil cs)
      | cons t ts => simp

theorem splitSpaceChars_no_space (l : List Char) (h : (' ' : Char) ∉ l) :
    splitSpaceChars l = [l] := by
  induction l with
  | nil => simp [splitSpaceChars]
  | cons c cs ih =>
    simp only [List.mem_cons, not_or] at h
    have hc : ¬ c = ' ' := fun hh => h.1 hh.symm
    simp only [splitSpaceChars, if_neg hc, ih h.2]

theorem splitSpaceS_no_space (w : String) (h : (' ' : Char) ∉ w.data) :
    splitSpaceS w = [w] := by
  simp only [splitSpaceS, splitSpaceChars_no_space w.data h, List.map_cons, List.map_nil]

theorem splitSpaceS_join (ws : List String) (hne : ws ≠ [])
    (hsp : ∀ w ∈ ws, (' ' : Char) ∉ w.data) :
    splitSpaceS (joinSpace ws) = ws := by
  induction ws with
  | nil => exact absurd rfl hne
  | cons w rest ih =>
    cases rest with
    | nil =>
      simp only [joinSpace]
      exact splitSpaceS_no_space w (hsp w (by simp))
    | cons v vs =>
      have hjoin_eq : joinSpace (w :: v :: vs) = w ++ " " ++ joinSpace (v :: vs) := rfl
      have hdata : (joinSpace (w :: v :: vs)).data =
          w.data ++ ' ' :: (joinSpace (v :: vs)).data := by
        rw [hjoin_eq, string_data_append, string_data_append, List.append_assoc]
        rfl
      simp only [splitSpaceS, hdata, splitSpaceChars_append, List.map_append]
      have h1 : (splitSpaceChars w.data).map String.mk = [w] :=
        splitSpaceS_no_space w (hsp w (by simp))
      have h2 : (splitSpaceChars (joinSpace (v :: vs)).data).map String.mk = v :: vs :=
        ih (by simp) (fun u hu => hsp u (List.mem_cons_of_mem w hu))
      rw [h1, h2]
      simp

theorem wickedScope_data (g : String) :
    (wickedScope g).data = wickedPrefixChars ++ g.data := by
  show ("wicked:" ++ g).data = wickedPrefixChars ++ g.data
  rw [string_data_append]
  rfl

theorem wickedScope_startsWith (g : String) :
    charsStartsWith wickedPrefixChars (wickedScope g).data = true := by
  rw [wickedScope_data]
  exact (charsStartsWith_iff wickedPrefixChars _).mpr ⟨g.data, rfl⟩

theorem wickedScope_no_space (g : String) (h : (' ' : Char) ∉ g.data) :
    (' ' : Char) ∉ (wickedScope g).data := by
  rw [wickedScope_data]
  intro hmem
  rcases List.mem_append.mp hmem with h' | h'
  · revert h'
    decide
  · exact h h'

/-- C9: merging with an empty or absent group list is the identity; a
non-empty group list appends exactly one `wicked:<group>` entry per group
(onto the array, or space-joined onto a non-empty string scope); and
`cleanupScopeString` strips exactly the `wicked:` entries again, recovering
the original scope list from a merged scope string. -/
theorem mergeUserGroupScope_roundtrip (scope : JsScope) (s : String)
    (a gs : List String) :
    mergeUserGroupScope scope none = scope ∧
    mergeUserGroupScope scope (some []) = scope ∧
    (gs ≠ [] → mergeUserGroupScope (.arr a) (some gs) = .arr (a ++ gs.map wickedScope)) ∧
    (gs ≠ [] → mergeUserGroupScope .nul (some gs) = .arr (gs.map wickedScope)) ∧
    (s ≠ "" → gs ≠ [] →
      mergeUserGroupScope (.str s) (some gs) =
        .str (s ++ " " ++ joinSpace (gs.map wickedScope))) ∧
    (s ≠ "" → gs ≠ [] →
      (∀ t ∈ splitSpaceS s, charsStartsWith wickedPrefixChars t.data = false) →
      (∀ g ∈ gs, (' ' : Char) ∉ g.data) →
      cleanupScopeString (s ++ " " ++ joinSpace (gs.map wickedScope)) = splitSpaceS s) := by
  refine ⟨rfl, rfl, ?_, ?_, ?_, ?_⟩
  · intro hgs
    simp [mergeUserGroupScope, hgs]
  · intro hgs
    simp [mergeUserGroupScope, hgs]
  · intro hs hgs
    simp [mergeUserGroupScope, hgs, hs]
  · intro hs hgs hclean hspace
    have hdata : (s ++ " " ++ joinSpace (gs.map wickedScope)).data =
        s.data ++ ' ' :: (joinSpace (gs.map wickedScope)).data := by
      rw [string_data_append, string_data_append, List.append_assoc]
      rfl
    have hbig : s ++ " " ++ joinSpace (gs.map wickedScope) ≠ "" := by
      intro h
      have := congrArg String.data h
      rw [hdata] at this
      simp at this
    have hsplit : splitSpaceS (s ++ " " ++ joinSpace (gs.map wickedScope)) =
        splitSpaceS s ++ gs.map wickedScope := by
      have hjoin : splitSpaceS (joinSpace (gs.map wickedScope)) = gs.map wickedScope :=
        splitSpaceS_join (gs.map wickedScope) (by simpa using hgs)
          (by
            intro w hw
            rcases List.mem_map.mp hw with ⟨g, hg, rfl⟩
            exact wickedScope_no_space g (hspace g hg))
      simp only [splitSpaceS, hdata, splitSpaceChars_append, List.map_append]
      rw [show (splitSpaceChars (joinSpace (gs.map wickedScope)).data).map String.mk
            = gs.map wickedScope from hjoin]
    rw [cleanupScopeString, if_neg hbig, hsplit, List.filter_append]
    have hkeep : (splitSpaceS s).filter
        (fun t => ¬ charsStartsWith wickedPrefixChars t.data) = splitSpaceS s := by
      apply List.filter_eq_self.mpr
      intro t ht
      simp [hclean t ht]
    have hdrop : (gs.map wickedScope).filter
        (fun t => ¬ charsStartsWith wickedPrefixChars t.data) = [] := by
      apply List.filter_eq_nil_iff.mpr
      intro t ht
      rcases List.mem_map.mp ht with ⟨g, hg, rfl⟩
      simp [wickedScope_startsWith g]
    rw [hkeep, hdrop, List.append_nil]

/-- Witness for C9 at concrete inputs. -/
theorem mergeUserGroupScope_roundtrip_witness :
    mergeUserGroupScope (.str "read write") none = .str "read write" ∧
    mergeUserGroupScope (.str "read write") (some []) = .str "read write" ∧
    (mergeUserGroupScope (.arr ["read"]) (some ["admin", "dev"]) =
      .arr (["read"] ++ ["admin", "dev"].map wickedScope)) ∧
    (mergeUserGroupScope .nul (some ["admin", "dev"]) =
      .arr (["admin", "dev"].map wickedScope)) ∧
    (mergeUserGroupScope (.str "read write") (some ["admin", "dev"]) =
      .str ("read write" ++ " " ++ joinSpace (["admin", "dev"].map wickedScope))) ∧
    (cleanupScopeString ("read write" ++ " " ++ joinSpace (["admin", "dev"].map wickedScope)) =
      splitSpaceS "read write") := by
  have h := mergeUserGroupScope_roundtrip (.str "read write") "read write"
    ["read"] ["admin", "dev"]
  exact ⟨h.1, h.2.1, h.2.2.1 (by decide), h.2.2.2.1 (by decide),
    h.2.2.2.2.1 (by decide) (by decide),
    h.2.2.2.2.2 (by decide) (by decide) (by decide) (by decide)⟩

/-! ## UtilsOAuth2.validateApiScopes (utils-oauth2.ts, lines 102-147) -/

structure ValidatedScopes where
  scopesDiffer : Bool
  validatedScopes : List String
deriving DecidableEq, Repr

/-- The untrusted branch of `validateApiScopes`: walk the requested scopes
in order; the first scope missing from the catalogue aborts with
`failMessage(400, ...)`, otherwise every scope is pushed onto the validated
list.  The catalogue map is embedded as its list of scope names. -/
def validateScopesUntrusted (apiScopes : List String) :
    List String → Except FailErr (List String)
  | [] => .ok []
  | s :: rest =>
    if apiScopes.contains s then
      (validateScopesUntrusted apiScopes rest).map (fun vs => s :: vs)
    else
      .error (failMessage 400 ("Invalid or unknown scope \"" ++ s ++ "\"."))

/-- `validateApiScopes(apiId, scope, subIsTrusted)`: a missing or empty
scope becomes the empty request list, otherwise the scope string is split
on spaces.  Untrusted subscriptions get each requested scope checked
against the catalogue; trusted subscriptions get the full catalogue with
`scopesDiffer = true`. -/
def validateApiScopes (apiScopes : List String) (scope : Option String)
    (subIsTrusted : Bool) : Except FailErr ValidatedScopes :=
  let requestScope := scope.getD ""
  let scopes := if requestScope = "" then [] else splitSpaceS requestScope
  if subIsTrusted then
    .ok ⟨true, apiScopes⟩
  else
    (validateScopesUntrusted apiScopes scopes).map (fun vs => ⟨false, vs⟩)

theorem validateScopesUntrusted_error (apiScopes : List String) (l : List String)
    (t : String) (hmem : t ∈ l) (hnot : t ∉ apiScopes) :
    ∃ e, validateScopesUntrusted apiScopes l = .error e ∧
      e.status = 400 ∧ e.oauthError = none := by
  induction l with
  | nil => cases hmem
  | cons s rest ih =>
    by_cases hs : s ∈ apiScopes
    · have ht : t ∈ rest := by
        rcases List.mem_cons.mp hmem with rfl | h'
        · exact absurd hs hnot
        · exact h'
      rcases ih ht with ⟨e, he, hst, hoa⟩
      refine ⟨e, ?_, hst, hoa⟩
      simp [validateScopesUntrusted, hs, he, Except.map]
    · refine ⟨failMessage 400 ("Invalid or unknown scope \"" ++ s ++ "\"."), ?_, rfl, rfl⟩
      simp [validateScopesUntrusted, hs]

/-- Counterexample for C1: an untrusted request for the unknown scope
`delete` fails through `failMessage(400, ...)`, which carries no OAuth2
error code at all, so the failure is not the OAuth2 error `invalid_scope`
(the 400 status is right, the error kind is not). -/
theorem validateApiScopes_counterexample :
    validateApiScopes ["read"] (some "delete") false =
      .error (failMessage 400 "Invalid or unknown scope \"delete\".") ∧
    (failMessage 400 "Invalid or unknown scope \"delete\".").oauthError ≠
      some "invalid_scope" := by
  constructor
  · rfl
  · decide

/-- C1 (amended): an untrusted subscription requesting any scope outside
the catalogue always fails with HTTP status 400 and a plain message
failure (no OAuth2 error code); a trusted subscription always receives
exactly the full catalogue with `scopesDiffer = true`. -/
theorem validateApiScopes_spec (apiScopes : List String) (scope : Option String)
    (s t : String) :
    validateApiScopes apiScopes scope true = .ok ⟨true, apiScopes⟩ ∧
    (s ≠ "" → t ∈ splitSpaceS s → t ∉ apiScopes →
      ∃ e, validateApiScopes apiScopes (some s) false = .error e ∧
        e.status = 400 ∧ e.oauthError = none) := by
  constructor
  · simp [validateApiScopes]
  · intro hs hmem hnot
    rcases validateScopesUntrusted_error apiScopes (splitSpaceS s) t hmem hnot with
      ⟨e, he, hst, hoa⟩
    refine ⟨e, ?_, hst, hoa⟩
    simp only [validateApiScopes, Option.getD_some, if_neg hs]
    simp [he, Except.map]

/-- Witness for C1 (amended) at concrete inputs. -/
theorem validateApiScopes_spec_witness :
    validateApiScopes ["read", "write"] (some "whatever") true =
      .ok ⟨true, ["read", "write"]⟩ ∧
    (∃ e, validateApiScopes ["read", "write"] (some "read delete") false = .error e ∧
      e.status = 400 ∧ e.oauthError = none) :=
  ⟨(validateApiScopes_spec ["read", "write"] (some "whatever") "read delete" "delete").1,
   (validateApiScopes_spec ["read", "write"] (some "whatever") "read delete" "delete").2
     (by decide) (by decide) (by decide)⟩

/-! ## Session / prompt handling in GET /api/:apiId/authorize
(generic-router.ts, lines 465-493) -/

inductive SessionOutcome where
  /-- `failOAuth` aborts the request. -/
  | fail (e : FailErr)
  /-- direct `instance.authorizeFlow(req, res, next)` -/
  | authorizeFlow
  /-- `instance.continueAuthorizeFlow(...)` with the stored auth response -/
  | continueAuthorize
  /-- `instance.idp.authorizeWithUi(...)`; the flag records whether the
  stored auth response was wiped first -/
  | loginUi (wipedAuthResponse : Bool)
deriving DecidableEq, Repr

/-- The decision taken after scope validation in the authorize handler:
the OpenID-Connect style `prompt` switch only runs for
`response_type === 'token'`; afterwards a logged-in session continues the
flow and everything else enters the login UI. -/
def checkSessionPrompt (responseType prompt : String) (isLoggedIn : Bool) :
    SessionOutcome :=
  if responseType = "token" then
    if prompt = "none" then
      if ¬ isLoggedIn then
        .fail (failOAuth 401 "login_required"
          "user must be logged in interactively, cannot authorize without logged in user.")
      else .authorizeFlow
    else if prompt = "login" then
      if isLoggedIn then .loginUi true else .loginUi false
    else if isLoggedIn then .continueAuthorize else .loginUi false
  else if isLoggedIn then .continueAuthorize else .loginUi false

/-- Counterexample for C5: with `response_type=code`, `prompt=none` and no
session the flow enters the login UI instead of failing with
`login_required`, and `prompt=login` with a session does not wipe the
stored auth response — the prompt guard only exists for `response_type=token`. -/
theorem checkSessionPrompt_counterexample :
    checkSessionPrompt "code" "none" false = .loginUi false ∧
    checkSessionPrompt "code" "none" false ≠
      SessionOutcome.fail (failOAuth 401 "login_required"
        "user must be logged in interactively, cannot authorize without logged in user.") ∧
    checkSessionPrompt "code" "login" true = .continueAuthorize := by
  refine ⟨by decide, by decide, by decide⟩

/-- C5 (amended): for `response_type=token`, `prompt=none` without a
session fails with 401 `login_required` and `prompt=login` with a session
wipes the stored auth response and enters the login UI; for
`response_type=code` the prompt parameter is ignored — a session continues
the flow and no session enters the login UI unwiped. -/
theorem checkSessionPrompt_spec (prompt : String) (isLoggedIn : Bool) :
    checkSessionPrompt "token" "none" false =
      .fail (failOAuth 401 "login_required"
        "user must be logged in interactively, cannot authorize without logged in user.") ∧
    checkSessionPrompt "token" "none" true = .authorizeFlow ∧
    checkSessionPrompt "token" "login" true = .loginUi true ∧
    checkSessionPrompt "token" "login" false = .loginUi false ∧
    checkSessionPrompt "code" prompt isLoggedIn =
      (if isLoggedIn then .continueAuthorize else .loginUi false) := by
  have hct : ("code" : String) ≠ "token" := by decide
  refine ⟨by decide, by decide, by decide, by decide, ?_⟩
  simp [checkSessionPrompt, hct]

/-! ## Kong grant-enable guards (kong-oauth2/oauth2.ts, lines 379-543) -/

/-- The gateway oauth2 plugin configuration fetched per API. -/
structure KongOAuth2Config where
  provision_key : String
  enable_client_credentials : Bool
  enable_implicit_grant : Bool
  enable_authorization_code : Bool
  enable_password_grant : Bool
deriving DecidableEq, Repr

inductive KongCall where
  /-- `failOAuth` aborts before talking to the gateway. -/
  | fail (e : FailErr)
  /-- `tokenWithKong(oauthInfo, grantType, callback)` is invoked. -/
  | invokeKong (grantType : String)
deriving DecidableEq, Repr

/-- `tokenClientCredentialsKong` (lines 439-447): 403 `unauthorized_client`
unless the fetched config advertises `enable_client_credentials`. -/
def tokenClientCredentialsKong (apiId : String) (cfg : Option KongOAuth2Config) :
    KongCall :=
  match cfg with
  | none => .fail (failOAuth 403 "unauthorized_client"
      ("The API " ++ apiId ++ " is not configured for the OAuth2 client credentials grant."))
  | some c =>
    if ¬ c.enable_client_credentials then
      .fail (failOAuth 403 "unauthorized_client"
        ("The API " ++ apiId ++ " is not configured for the OAuth2 client credentials grant."))
    else .invokeKong "client_credentials"

/-- `tokenAuthorizationCodeKong` (lines 379-386): 403 `unauthorized_client`
unless the fetched config advertises `enable_authorization_code`. -/
def tokenAuthorizationCodeKong (apiId : String) (cfg : Option KongOAuth2Config) :
    KongCall :=
  match cfg with
  | none => .fail (failOAuth 403 "unauthorized_client"
      ("The API " ++ apiId ++ " is not configured for the OAuth2 authorization code grant."))
  | some c =>
    if ¬ c.enable_authorization_code then
      .fail (failOAuth 403 "unauthorized_client"
        ("The API " ++ apiId ++ " is not configured for the OAuth2 authorization code grant."))
    else .invokeKong "authorization_code"

/-- `tokenPasswordGrantKong` (lines 490-497): 403 `unauthorized_client`
unless the fetched config advertises `enable_password_grant`. -/
def tokenPasswordGrantKong (apiId : String) (cfg : Option KongOAuth2Config) :
    KongCall :=
  match cfg with
  | none => .fail (failOAuth 403 "unauthorized_client"
      ("The API " ++ apiId ++ " is not configured for the OAuth2 resource owner password grant."))
  | some c =>
    if ¬ c.enable_password_grant then
      .fail (failOAuth 403 "unauthorized_client"
        ("The API " ++ apiId ++ " is not configured for the OAuth2 resource owner password grant."))
    else .invokeKong "password"

/-- `tokenRefreshTokenKong` (lines 540-543): no configuration check at
all, it goes straight to `tokenWithKong`. -/
def tokenRefreshTokenKong (apiId : String) (cfg : Option KongOAuth2Config) :
    KongCall :=
  .invokeKong "refresh_token"

/-- Does a Kong invoker abort with a failure? -/
def kongCallFails : KongCall → Bool
  | .fail _ => true
  | .invokeKong _ => false

/-- A fetched plugin configuration that advertises no grant at all. -/
def allDisabledConfig : KongOAuth2Config :=
  ⟨"PK", false, false, false, false⟩

/-- Counterexample for C4: a refresh-token request against a configuration
that advertises no grant at all is not rejected — `tokenRefreshTokenKong`
performs no enable-flag check and invokes the gateway. -/
theorem tokenRefreshTokenKong_counterexample :
    tokenRefreshTokenKong "some-api" (some allDisabledConfig) =
      .invokeKong "refresh_token" ∧
    kongCallFails (tokenRefreshTokenKong "some-api" (some allDisabledConfig)) = false := by
  exact ⟨rfl, rfl⟩

/-- C4 (amended): the grant-enable guard (403 `unauthorized_client` when
the fetched oauth2 plugin config is missing or does not advertise the
grant) holds for the client_credentials, authorization_code and password
token operations, but the refresh_token operation performs no such check. -/
theorem grantEnableGuards_spec (apiId : String) (cfg : Option KongOAuth2Config) :
    ((cfg = none ∨ ∃ c, cfg = some c ∧ c.enable_client_credentials = false) →
      ∃ e, tokenClientCredentialsKong apiId cfg = .fail e ∧
        e.status = 403 ∧ e.oauthError = some "unauthorized_client") ∧
    ((cfg = none ∨ ∃ c, cfg = some c ∧ c.enable_authorization_code = false) →
      ∃ e, tokenAuthorizationCodeKong apiId cfg = .fail e ∧
        e.status = 403 ∧ e.oauthError = some "unauthorized_client") ∧
    ((cfg = none ∨ ∃ c, cfg = some c ∧ c.enable_password_grant = false) →
      ∃ e, tokenPasswordGrantKong apiId cfg = .fail e ∧
        e.status = 403 ∧ e.oauthError = some "unauthorized_client") ∧
    tokenRefreshTokenKong apiId cfg = .invokeKong "refresh_token" := by
  refine ⟨?_, ?_, ?_, rfl⟩
  · rintro (rfl | ⟨c, rfl, hc⟩)
    · exact ⟨failOAuth 403 "unauthorized_client"
        ("The API " ++ apiId ++ " is not configured for the OAuth2 client credentials grant."),
        rfl, rfl, rfl⟩
    · refine ⟨failOAuth 403 "unauthorized_client"
        ("The API " ++ apiId ++ " is not configured for the OAuth2 client credentials grant."),
        ?_, rfl, rfl⟩
      simp [tokenClientCredentialsKong, hc]
  · rintro (rfl | ⟨c, rfl, hc⟩)
    · exact ⟨failOAuth 403 "unauthorized_client"
        ("The API " ++ apiId ++ " is not configured for the OAuth2 authorization code grant."),
        rfl, rfl, rfl⟩
    · refine ⟨failOAuth 403 "unauthorized_client"
        ("The API " ++ apiId ++ " is not configured for the OAuth2 authorization code grant."),
        ?_, rfl, rfl⟩
      simp [tokenAuthorizationCodeKong, hc]
  · rintro (rfl | ⟨c, rfl, hc⟩)
    · exact ⟨failOAuth 403 "unauthorized_client"
        ("The API " ++ apiId ++ " is not configured for the OAuth2 resource owner password grant."),
        rfl, rfl, rfl⟩
    · refine ⟨failOAuth 403 "unauthorized_client"
        ("The API " ++ apiId ++ " is not configured for the OAuth2 resource owner password grant."),
        ?_, rfl, rfl⟩
      simp [tokenPasswordGrantKong, hc]

/-- Witness for C4 (amended) at a concrete disabled configuration. -/
theorem grantEnableGuards_spec_witness :
    (∃ e, tokenClientCredentialsKong "api1" (some allDisabledConfig) = .fail e ∧
      e.status = 403 ∧ e.oauthError = some "unauthorized_client") ∧
    (∃ e, tokenAuthorizationCodeKong "api1" (some allDisabledConfig) = .fail e ∧
      e.status = 403 ∧ e.oauthError = some "unauthorized_client") ∧
    (∃ e, tokenPasswordGrantKong "api1" (some allDisabledConfig) = .fail e ∧
      e.status = 403 ∧ e.oauthError = some "unauthorized_client") ∧
    tokenRefreshTokenKong "api1" (some allDisabledConfig) = .invokeKong "refresh_token" := by
  have h := grantEnableGuards_spec "api1" (some allDisabledConfig)
  exact ⟨h.1 (Or.inr ⟨allDisabledConfig, rfl, rfl⟩),
    h.2.1 (Or.inr ⟨allDisabledConfig, rfl, rfl⟩),
    h.2.2.1 (Or.inr ⟨allDisabledConfig, rfl, rfl⟩), h.2.2.2⟩

/-! ## GenericOAuth2Router.tokenPasswordGrant precondition phase
(generic-router.ts, lines 1191-1210) -/

/-- The precondition phase of `tokenPasswordGrant`, after
`validateSubscription` succeeded: a confidential application must present a
client_secret equal to the stored subscription secret (else 401), and only
trusted subscriptions may continue (else 400).  `.ok ()` means the handler
proceeds to scope validation and IdP authentication. -/
def tokenPasswordGrantPre (trusted confidential : Bool)
    (storedClientSecret suppliedClientSecret : Option String) :
    Except FailErr Unit :=
  if confidential then
    match suppliedClientSecret with
    | none => .error (failOAuth 401 "invalid_request"
        "A confidential application must also pass its client_secret")
    | some sec =>
      if storedClientSecret ≠ some sec then
        .error (failOAuth 401 "invalid_request" "Invalid client secret")
      else if ¬ trusted then
        .error (failOAuth 400 "invalid_request"
          "only trusted application subscriptions can retrieve tokens via the password grant.")
      else .ok ()
  else if ¬ trusted then
    .error (failOAuth 400 "invalid_request"
      "only trusted application subscriptions can retrieve tokens via the password grant.")
  else .ok ()

/-- C3: a password-grant request from a non-trusted subscription always
fails with the OAuth2 error `invalid_request` regardless of the supplied
credentials, and a confidential application with a missing or mismatched
client_secret always fails with HTTP status 401. -/
theorem tokenPasswordGrant_preconditions (trusted confidential : Bool)
    (storedSecret suppliedSecret : Option String) :
    (trusted = false →
      ∃ e, tokenPasswordGrantPre trusted confidential storedSecret suppliedSecret =
        .error e ∧ e.oauthError = some "invalid_request") ∧
    (confidential = true →
      (suppliedSecret = none ∨ storedSecret ≠ suppliedSecret) →
      ∃ e, tokenPasswordGrantPre trusted confidential storedSecret suppliedSecret =
        .error e ∧ e.status = 401) := by
  constructor
  · rintro rfl
    cases confidential with
    | false =>
      exact ⟨failOAuth 400 "invalid_request"
        "only trusted application subscriptions can retrieve tokens via the password grant.",
        rfl, rfl⟩
    | true =>
      cases suppliedSecret with
      | none =>
        exact ⟨failOAuth 401 "invalid_request"
          "A confidential application must also pass its client_secret", rfl, rfl⟩
      | some sec =>
        by_cases hmatch : storedSecret = some sec
        · refine ⟨failOAuth 400 "invalid_request"
            "only trusted application subscriptions can retrieve tokens via the password grant.",
            ?_, rfl⟩
          simp [tokenPasswordGrantPre, hmatch]
        · refine ⟨failOAuth 401 "invalid_request" "Invalid client secret", ?_, rfl⟩
          simp [tokenPasswordGrantPre, hmatch]
  · rintro rfl hcase
    cases suppliedSecret with
    | none =>
      exact ⟨failOAuth 401 "invalid_request"
        "A confidential application must also pass its client_secret", rfl, rfl⟩
    | some sec =>
      have hmatch : storedSecret ≠ some sec := by
        rcases hcase with h | h
        · exact absurd h (by simp)
        · exact h
      refine ⟨failOAuth 401 "invalid_request" "Invalid client secret", ?_, rfl⟩
      simp [tokenPasswordGrantPre, hmatch]

/-- Witness for C3 at concrete inputs: a non-trusted non-confidential
request, and a confidential request with a wrong secret. -/
theorem tokenPasswordGrant_preconditions_witness :
    (∃ e, tokenPasswordGrantPre false false none none = .error e ∧
      e.oauthError = some "invalid_request") ∧
    (∃ e, tokenPasswordGrantPre true true (some "S") (some "X") = .error e ∧
      e.status = 401) :=
  ⟨(tokenPasswordGrant_preconditions false false none none).1 rfl,
   (tokenPasswordGrant_preconditions true true (some "S") (some "X")).2 rfl
     (Or.inr (by decide))⟩

/-! ## Gateway request bodies (kong-oauth2/oauth2.ts, getAuthorizeRequest
lines 613-663, getTokenRequest lines 748-832) -/

/-- A JSON object property: missing entirely, present with value `null`, or
present with a string value. -/
inductive JsField where
  | absent
  | nullv
  | strv (s : String)
deriving DecidableEq, Repr

/-- The local `scope` variable computed at the top of both
`getAuthorizeRequest` and `getTokenRequest`: `null` when the input scope is
falsy (absent or the empty string), the string itself for a string, the
space-joined string for an array. -/
def jsEffectiveScope : JsScope → Option String
  | .nul => none
  | .str s => if s = "" then none else some s
  | .arr a => some (joinSpace a)

/-- A property fed from a possibly-undefined input: an undefined value is
dropped when the body is serialized to JSON. -/
def optField : Option String → JsField
  | none => .absent
  | some s => .strv s

structure AuthorizeBody where
  response_type : String
  provision_key : String
  client_id : String
  redirect_uri : String
  authenticated_userid : String
  scope : JsField
deriving DecidableEq, Repr

/-- `getAuthorizeRequest`: the body is created with `scope: null` and the
field is only overwritten (never deleted) when the effective scope is
truthy. -/
def getAuthorizeRequestBody (responseType provisionKey clientId redirectUri
    authenticatedUserid : String) (inputScope : JsScope) : AuthorizeBody :=
  { response_type := responseType
    provision_key := provisionKey
    client_id := clientId
    redirect_uri := redirectUri
    authenticated_userid := authenticatedUserid
    scope :=
      match jsEffectiveScope inputScope with
      | none => JsField.nullv
      | some s => if s = "" then JsField.nullv else JsField.strv s }

structure TokenBody where
  grant_type : String
  client_id : JsField := .absent
  client_secret : JsField := .absent
  code : JsField := .absent
  redirect_uri : JsField := .absent
  provision_key : JsField := .absent
  authenticated_userid : JsField := .absent
  refresh_token : JsField := .absent
  scope : JsField := .absent
deriving DecidableEq, Repr

/-- The `scope` property of a token body after the trailing
`if (!scope && tokenBody.hasOwnProperty(...)) delete tokenBody.scope`:
a falsy effective scope removes the property entirely. -/
def tokenScopeField (inputScope : JsScope) : JsField :=
  match jsEffectiveScope inputScope with
  | none => JsField.absent
  | some s => if s = "" then JsField.absent else JsField.strv s

/-- `getTokenRequest`: per-grant body shapes.  Only the client_credentials
and password bodies carry a `scope` property at all, and it is deleted
again when the effective scope is falsy. -/
def getTokenRequestBody (grantType clientId : String)
    (clientSecret codeValue : Option String) (redirectUri provisionKey : String)
    (authenticatedUserid refreshToken : Option String) (inputScope : JsScope) :
    Except FailErr TokenBody :=
  if grantType = "client_credentials" then
    .ok { grant_type := grantType
          client_id := .strv clientId
          client_secret := optField clientSecret
          scope := tokenScopeField inputScope }
  else if grantType = "authorization_code" then
    .ok { grant_type := grantType
          client_id := .strv clientId
          client_secret := optField clientSecret
          code := optField codeValue
          redirect_uri := .strv redirectUri }
  else if grantType = "password" then
    .ok { grant_type := grantType
          client_id := .strv clientId
          client_secret := optField clientSecret
          provision_key := .strv provisionKey
          authenticated_userid := optField authenticatedUserid
          scope := tokenScopeField inputScope }
  else if grantType = "refresh_token" then
    .ok { grant_type := grantType
          client_id := .strv clientId
          client_secret := optField clientSecret
          refresh_token := optField refreshToken }
  else
    .error (failOAuth 400 "invalid_request" ("invalid grant_type " ++ grantType))

/-- Counterexample for C6: an authorize body built from an empty scope
still carries the `scope` property, with value `null` — it is not omitted
(the token bodies do omit it). -/
theorem getAuthorizeRequestBody_counterexample :
    (getAuthorizeRequestBody "code" "PK" "CID" "https://c.example/cb" "sub=u1"
      (.str "")).scope = JsField.nullv ∧
    JsField.nullv ≠ JsField.absent := by
  exact ⟨rfl, by decide⟩

/-- C6 (amended): with an empty effective scope the token bodies for
client_credentials and password omit the `scope` field entirely while the
authorize body keeps it with value `null`; with a non-empty effective scope
all three carry it as the single (space-joined for arrays) string; the
authorization_code and refresh_token bodies never carry a scope field. -/
theorem gatewayBody_scope_spec (sc : JsScope) (s : String)
    (responseType provisionKey clientId redirectUri authenticatedUserid : String)
    (clientSecret codeValue authUid refreshToken : Option String) :
    ((jsEffectiveScope sc).getD "" = "" →
      (getAuthorizeRequestBody responseType provisionKey clientId redirectUri
        authenticatedUserid sc).scope = JsField.nullv ∧
      (∃ b, getTokenRequestBody "client_credentials" clientId clientSecret codeValue
        redirectUri provisionKey authUid refreshToken sc = .ok b ∧
        b.scope = JsField.absent) ∧
      (∃ b, getTokenRequestBody "password" clientId clientSecret codeValue
        redirectUri provisionKey authUid refreshToken sc = .ok b ∧
        b.scope = JsField.absent)) ∧
    (jsEffectiveScope sc = some s → s ≠ "" →
      (getAuthorizeRequestBody responseType provisionKey clientId redirectUri
        authenticatedUserid sc).scope = JsField.strv s ∧
      (∃ b, getTokenRequestBody "client_credentials" clientId clientSecret codeValue
        redirectUri provisionKey authUid refreshToken sc = .ok b ∧
        b.scope = JsField.strv s) ∧
      (∃ b, getTokenRequestBody "password" clientId clientSecret codeValue
        redirectUri provisionKey authUid refreshToken sc = .ok b ∧
        b.scope = JsField.strv s)) ∧
    (∃ b, getTokenRequestBody "authorization_code" clientId clientSecret codeValue
      redirectUri provisionKey authUid refreshToken sc = .ok b ∧
      b.scope = JsField.absent) ∧
    (∃ b, getTokenRequestBody "refresh_token" clientId clientSecret codeValue
      redirectUri provisionKey authUid refreshToken sc = .ok b ∧
      b.scope = JsField.absent) ∧
    (∀ a : List String, jsEffectiveScope (.arr a) = some (joinSpace a)) := by
  have hcc : ("client_credentials" : String) = "client_credentials" := rfl
  have hac1 : ¬ ("authorization_code" : String) = "client_credentials" := by decide
  have hpw1 : ¬ ("password" : String) = "client_credentials" := by decide
  have hpw2 : ¬ ("password" : String) = "authorization_code" := by decide
  have hrt1 : ¬ ("refresh_token" : String) = "client_credentials" := by decide
  have hrt2 : ¬ ("refresh_token" : String) = "authorization_code" := by decide
  have hrt3 : ¬ ("refresh_token" : String) = "password" := by decide
  refine ⟨?_, ?_, ?_, ?_, fun a => rfl⟩
  · intro hempty
    have hfield :
        (match jsEffectiveScope sc with
          | none => JsField.nullv
          | some s => if s = "" then JsField.nullv else JsField.strv s) = JsField.nullv := by
      cases heff : jsEffectiveScope sc with
      | none => rfl
      | some s' =>
        have : s' = "" := by simpa [heff] using hempty
        simp [this]
    have htok : tokenScopeField sc = JsField.absent := by
      unfold tokenScopeField
      cases heff : jsEffectiveScope sc with
      | none => rfl
      | some s' =>
        have : s' = "" := by simpa [heff] using hempty
        simp [this]
    refine ⟨?_,
      ⟨TokenBody.mk "client_credentials" (.strv clientId) (optField clientSecret)
        .absent .absent .absent .absent .absent (tokenScopeField sc), ?_, ?_⟩,
      ⟨TokenBody.mk "password" (.strv clientId) (optField clientSecret)
        .absent .absent (.strv provisionKey) (optField authUid) .absent
        (tokenScopeField sc), ?_, ?_⟩⟩
    · simpa [getAuthorizeRequestBody] using hfield
    · simp [getTokenRequestBody]
    · exact htok
    · simp [getTokenRequestBody, hpw1, hpw2]
    · exact htok
  · intro heff hs
    have hfield :
        (match jsEffectiveScope sc with
          | none => JsField.nullv
          | some s => if s = "" then JsField.nullv else JsField.strv s) = JsField.strv s := by
      simp [heff, hs]
    have htok : tokenScopeField sc = JsField.strv s := by
      unfold tokenScopeField
      simp [heff, hs]
    refine ⟨?_,
      ⟨TokenBody.mk "client_credentials" (.strv clientId) (optField clientSecret)
        .absent .absent .absent .absent .absent (tokenScopeField sc), ?_, ?_⟩,
      ⟨TokenBody.mk "password" (.strv clientId) (optField clientSecret)
        .absent .absent (.strv provisionKey) (optField authUid) .absent
        (tokenScopeField sc), ?_, ?_⟩⟩
    · simpa [getAuthorizeRequestBody] using hfield
    · simp [getTokenRequestBody]
    · exact htok
    · simp [getTokenRequestBody, hpw1, hpw2]
    · exact htok
  · refine ⟨TokenBody.mk "authorization_code" (.strv clientId) (optField clientSecret)
      (optField codeValue) (.strv redirectUri) .absent .absent .absent .absent, ?_, rfl⟩
    simp [getTokenRequestBody, hac1]
  · refine ⟨TokenBody.mk "refresh_token" (.strv clientId) (optField clientSecret)
      .absent .absent .absent .absent (optField refreshToken) .absent, ?_, rfl⟩
    simp [getTokenRequestBody, hrt1, hrt2, hrt3]

/-- Witness for C6 (amended) at concrete inputs. -/
theorem gatewayBody_scope_spec_witness :
    ((getAuthorizeRequestBody "code" "PK" "CID" "https://c.example/cb" "sub=u1"
        (.arr [])).scope = JsField.nullv ∧
      (∃ b, getTokenRequestBody "client_credentials" "CID" (some "SEC") none
        "https://c.example/cb" "PK" none none (.arr []) = .ok b ∧
        b.scope = JsField.absent) ∧
      (∃ b, getTokenRequestBody "password" "CID" (some "SEC") none
        "https://c.example/cb" "PK" none none (.arr []) = .ok b ∧
        b.scope = JsField.absent)) ∧
    ((getAuthorizeRequestBody "code" "PK" "CID" "https://c.example/cb" "sub=u1"
        (.arr ["read", "write"])).scope = JsField.strv "read write" ∧
      (∃ b, getTokenRequestBody "client_credentials" "CID" (some "SEC") none
        "https://c.example/cb" "PK" none none (.arr ["read", "write"]) = .ok b ∧
        b.scope = JsField.strv "read write") ∧
      (∃ b, getTokenRequestBody "password" "CID" (some "SEC") none
        "https://c.example/cb" "PK" none none (.arr ["read", "write"]) = .ok b ∧
        b.scope = JsField.strv "read write")) := by
  refine ⟨?_, ?_⟩
  · exact (gatewayBody_scope_spec (.arr []) "" "code" "PK" "CID" "https://c.example/cb"
      "sub=u1" (some "SEC") none none none).1 (by decide)
  · exact (gatewayBody_scope_spec (.arr ["read", "write"]) "read write" "code" "PK" "CID"
      "https://c.example/cb" "sub=u1" (some "SEC") none none none).2.1
      (by decide) (by decide)

/-! ## Profiles, tokens and the Profile Store -/

/-- OIDC profile (types.ts); only the claims-relevant fields are carried. -/
structure OidcProfile where
  sub : String
  email : Option String := none
  email_verified : Option Bool := none
deriving DecidableEq, Repr

/-- Access token returned by the gateway (types.ts).  On the success paths
modelled here `access_token` is present. -/
structure AccessToken where
  access_token : String
  refresh_token : Option String := none
  token_type : Option String := none
  expires_in : Option Nat := none
  session_data : Option OidcProfile := none
deriving DecidableEq, Repr

/-- Modelled from the spec: profile-store.ts is not under src/.  Per spec
section 4.4 the Profile Store is an expiring key-value map from issued
codes/tokens to profiles; it is embedded as an association list where the
first match wins. -/
abbrev ProfileStore := List (String × OidcProfile)

/-- `profileStore.retrieve(key)`. -/
def psRetrieve (store : ProfileStore) (key : String) : Option OidcProfile :=
  (store.find? (fun kv => kv.fst == key)).map Prod.snd

/-- `profileStore.deleteTokenOrCode(key)`. -/
def psDeleteTokenOrCode (store : ProfileStore) (key : String) : ProfileStore :=
  store.filter (fun kv => kv.fst != key)

/-- `profileStore.registerTokenOrCode(token, apiId, profile)` for a token
object: per spec section 4.4 both the access token and the refresh token
(when present) are mapped to the profile.  The apiId only scopes the TTL
bookkeeping and does not affect lookups. -/
def psRegisterTokenOrCode (store : ProfileStore) (token : AccessToken)
    (apiId : String) (profile : OidcProfile) : ProfileStore :=
  match token.refresh_token with
  | none => (token.access_token, profile) :: store
  | some rt => (token.access_token, profile) :: (rt, profile) :: store

/-- `UtilsOAuth2.tokenAuthorizationCode` (utils-oauth2.ts, lines 224-256):
after the gateway mints the token, the profile stored under the code is
retrieved (a miss propagates the store error, surfaced as 404 per spec
section 4.4), attached as `session_data`, the code entry is deleted and the
token object is registered under the issued token keys. -/
def tokenAuthorizationCode (store : ProfileStore) (apiId : String) (code : String)
    (mintResult : Except FailErr AccessToken) :
    Except FailErr (AccessToken × ProfileStore) :=
  match mintResult with
  | .error e => .error e
  | .ok accessToken =>
    match psRetrieve store code with
    | none => .error (failOAuth 404 "invalid_request" "Not found")
    | some profile =>
      let tokenWithProfile := { accessToken with session_data := some profile }
      let afterDelete := psDeleteTokenOrCode store code
      let afterRegister := psRegisterTokenOrCode afterDelete tokenWithProfile apiId profile
      .ok (tokenWithProfile, afterRegister)

theorem psRetrieve_delete_self (store : ProfileStore) (key : String) :
    psRetrieve (psDeleteTokenOrCode store key) key = none := by
  induction store with
  | nil => rfl
  | cons kv rest ih =>
    by_cases hk : kv.fst = key
    · simpa [psDeleteTokenOrCode, List.filter_cons, hk] using ih
    · have hfil : psDeleteTokenOrCode (kv :: rest) key =
          kv :: psDeleteTokenOrCode rest key := by
        simp [psDeleteTokenOrCode, List.filter_cons, bne_iff_ne, hk]
      rw [hfil]
      unfold psRetrieve
      rw [List.find?_cons_of_neg _ (by simp [hk])]
      exact ih

theorem psRetrieve_register_self (store : ProfileStore) (token : AccessToken)
    (apiId : String) (profile : OidcProfile) :
    psRetrieve (psRegisterTokenOrCode store token apiId profile) token.access_token =
      some profile := by
  cases hrt : token.refresh_token with
  | none => simp [psRegisterTokenOrCode, psRetrieve, hrt, List.find?_cons]
  | some rt => simp [psRegisterTokenOrCode, psRetrieve, hrt, List.find?_cons]

theorem psRetrieve_register_other (store : ProfileStore) (token : AccessToken)
    (apiId : String) (profile : OidcProfile) (key : String)
    (h1 : token.access_token ≠ key) (h2 : token.refresh_token ≠ some key) :
    psRetrieve (psRegisterTokenOrCode store token apiId profile) key =
      psRetrieve store key := by
  cases hrt : token.refresh_token with
  | none => simp [psRegisterTokenOrCode, psRetrieve, hrt, List.find?_cons, h1]
  | some rt =>
    have hrtne : rt ≠ key := by
      intro hh
      exact h2 (by rw [hrt, hh])
    simp [psRegisterTokenOrCode, psRetrieve, hrt, List.find?_cons, h1, hrtne]

/-- C2: a successful authorization-code token exchange re-registers the
profile that was stored under the code under the issued access token, and
afterwards the code key is no longer retrievable from the Profile Store
(for freshly issued tokens, i.e. tokens distinct from the spent code). -/
theorem tokenAuthorizationCode_profile_rebind (store : ProfileStore)
    (apiId code : String) (mintResult : Except FailErr AccessToken)
    (tok : AccessToken) (store2 : ProfileStore)
    (hrun : tokenAuthorizationCode store apiId code mintResult = .ok (tok, store2))
    (hne1 : tok.access_token ≠ code) (hne2 : tok.refresh_token ≠ some code) :
    ∃ profile, psRetrieve store code = some profile ∧
      psRetrieve store2 tok.access_token = some profile ∧
      psRetrieve store2 code = none := by
  cases mintResult with
  | error e => simp [tokenAuthorizationCode] at hrun
  | ok accessToken =>
    cases hret : psRetrieve store code with
    | none => simp [tokenAuthorizationCode, hret] at hrun
    | some profile =>
      simp only [tokenAuthorizationCode, hret, Except.ok.injEq, Prod.mk.injEq] at hrun
      obtain ⟨htok, hstore⟩ := hrun
      refine ⟨profile, rfl, ?_, ?_⟩
      · rw [← hstore, ← htok]
        exact psRetrieve_register_self _ _ _ _
      · rw [← hstore]
        rw [psRetrieve_register_other _ _ _ _ _ (htok ▸ hne1) (htok ▸ hne2)]
        exact psRetrieve_delete_self store code
/-- Witness for C2 at a concrete store, code and minted token. -/
theorem tokenAuthorizationCode_profile_rebind_witness :
    ∃ profile,
      psRetrieve [("CODE1", OidcProfile.mk "u1" (some "u1@ex") none)] "CODE1" =
        some profile ∧
      psRetrieve
        [("TOK1", OidcProfile.mk "u1" (some "u1@ex") none),
         ("REF1", OidcProfile.mk "u1" (some "u1@ex") none)] "TOK1" = some profile ∧
      psRetrieve
        [("TOK1", OidcProfile.mk "u1" (some "u1@ex") none),
         ("REF1", OidcProfile.mk "u1" (some "u1@ex") none)] "CODE1" = none := by
  exact tokenAuthorizationCode_profile_rebind
    [("CODE1", OidcProfile.mk "u1" (some "u1@ex") none)] "api1" "CODE1"
    (.ok (AccessToken.mk "TOK1" (some "REF1") none none none))
    (AccessToken.mk "TOK1" (some "REF1") none none
      (some (OidcProfile.mk "u1" (some "u1@ex") none)))
    [("TOK1", OidcProfile.mk "u1" (some "u1@ex") none),
     ("REF1", OidcProfile.mk "u1" (some "u1@ex") none)]
    (by rfl) (by decide) (by decide)

/-! ## GenericOAuth2Router.tokenRefreshToken (generic-router.ts, 1442-1520) -/

/-- Portal user record (wicked-types.ts); claims-relevant fields. -/
structure WickedUserInfo where
  id : String
  email : Option String := none
  validated : Option Bool := none
  groups : List String := []
deriving DecidableEq, Repr

/-- `UtilsOAuth2.wickedUserInfoToOidcProfile` (utils-oauth2.ts, 287-296). -/
def wickedUserInfoToOidcProfile (userInfo : WickedUserInfo) : OidcProfile :=
  { sub := userInfo.id, email := userInfo.email, email_verified := userInfo.validated }

/-- The portal API descriptor fields steering the refresh grant. -/
structure WickedApiInfo where
  passthroughUsers : Bool
  passthroughScopeUrl : Option String
deriving DecidableEq, Repr

/-- Stored token info looked up by refresh token (types.ts TokenInfo). -/
structure TokenInfo where
  access_token : String
  refresh_token : String
  authenticated_userid : String
  scope : String
deriving DecidableEq, Repr

/-- Response of the external passthrough-scope service (wicked-sdk). -/
structure PassthroughScopeResponse where
  allow : Bool := false
  authenticated_userid : Option String := none
  authenticated_scope : Option (List String) := none
deriving DecidableEq, Repr

/-- Token request (types.ts TokenRequest); claims-relevant fields. -/
structure TokenRequest where
  grant_type : String
  api_id : String
  client_id : String
  client_secret : Option String := none
  scope : JsScope := .nul
  refresh_token : Option String := none
  authenticated_userid : Option String := none
  session_data : Option OidcProfile := none
deriving DecidableEq, Repr

/-- An optional scope list from the external service, as assigned to the
request scope (undefined stays falsy). -/
def jsScopeOfOpt : Option (List String) → JsScope
  | none => .nul
  | some l => .arr l

inductive RefreshOutcome where
  /-- a `failOAuth` / `failError` abort -/
  | fail (e : FailErr)
  /-- `oauth2.token(tokenRequest, callback)` with the final request -/
  | mint (req : TokenRequest)
  /-- mint, then best-effort `tokens.deleteTokens(oldAccessToken, ...)` -/
  | mintThenDeleteToken (req : TokenRequest) (oldAccessToken : String)
deriving DecidableEq, Repr

/-- `tokenRefreshToken`, dispatching on the API (passthroughUsers,
passthroughScopeUrl) mode after the token info and API have been looked
up.  The IdP refresh check, the portal user lookup and the external scope
resolution are passed in as oracles; the scope oracle receives the stored
scope with synthetic `wicked:` entries stripped. -/
def tokenRefreshToken (tokenRequest : TokenRequest) (tokenInfo : TokenInfo)
    (apiInfo : WickedApiInfo)
    (idpCheckResult : Except FailErr Unit)
    (getUser : String → Option WickedUserInfo)
    (scopeResolve : List String → Except FailErr PassthroughScopeResponse) :
    RefreshOutcome :=
  if apiInfo.passthroughUsers ∧ apiInfo.passthroughScopeUrl = none then
    .fail (failOAuth 500 "server_error"
      "when using the combination of passthrough users and not retrieving the scope from a third party, refresh tokens cannot be used.")
  else if ¬ apiInfo.passthroughUsers ∧ apiInfo.passthroughScopeUrl ≠ none then
    .fail (failOAuth 500 "server_error"
      "wicked managed users and passthrough scope URL is not yet implemented (spec unclear).")
  else if ¬ apiInfo.passthroughUsers ∧ apiInfo.passthroughScopeUrl = none then
    let userId := extractUserId tokenInfo.authenticated_userid
    if userId = "" then
      .fail (failOAuth 500 "server_error"
        "could not correctly retrieve authenticated user id from refresh token")
    else
      match idpCheckResult with
      | .error _ => .fail (failOAuth 500 "server_error"
          "checking the refresh token returned an unexpected error.")
      | .ok _ =>
        match getUser userId with
        | none => .fail (failOAuth 400 "invalid_request"
            "user associated with refresh token is not a valid user (anymore)")
        | some userInfo =>
          .mint { tokenRequest with
            session_data := some (wickedUserInfoToOidcProfile userInfo) }
  else
    match scopeResolve (cleanupScopeString tokenInfo.scope) with
    | .error e => .fail (failError 500 e.message)
    | .ok scopeResponse =>
      .mintThenDeleteToken
        { tokenRequest with
          grant_type := "password"
          authenticated_userid := scopeResponse.authenticated_userid
          scope := jsScopeOfOpt scopeResponse.authenticated_scope
          session_data := some { sub := tokenInfo.authenticated_userid } }
        tokenInfo.access_token

/-- C7: the refresh grant outcome is determined by the API mode pair —
(passthroughUsers, no scope URL) and (no passthroughUsers, scope URL) fail
with 500 `server_error`; (passthroughUsers, scope URL) re-resolves the
stripped scope externally, rewrites the request to a `password` grant with
the returned authenticated_userid and scope and deletes the previous
access token after minting; the normal mode extracts the user id, checks
the refresh token with the IdP, requires the user to still exist (else 400
`invalid_request`) and re-mints. -/
theorem tokenRefreshToken_mode_dispatch (req : TokenRequest) (ti : TokenInfo)
    (idpCheck : Except FailErr Unit) (getUser : String → Option WickedUserInfo)
    (scopeResolve : List String → Except FailErr PassthroughScopeResponse)
    (url : String) (sr : PassthroughScopeResponse) (ui : WickedUserInfo) :
    (∃ e, tokenRefreshToken req ti ⟨true, none⟩ idpCheck getUser scopeResolve =
      .fail e ∧ e.status = 500 ∧ e.oauthError = some "server_error") ∧
    (∃ e, tokenRefreshToken req ti ⟨false, some url⟩ idpCheck getUser scopeResolve =
      .fail e ∧ e.status = 500 ∧ e.oauthError = some "server_error") ∧
    (scopeResolve (cleanupScopeString ti.scope) = .ok sr →
      tokenRefreshToken req ti ⟨true, some url⟩ idpCheck getUser scopeResolve =
        .mintThenDeleteToken
          { req with
            grant_type := "password"
            authenticated_userid := sr.authenticated_userid
            scope := jsScopeOfOpt sr.authenticated_scope
            session_data := some { sub := ti.authenticated_userid } }
          ti.access_token) ∧
    (extractUserId ti.authenticated_userid ≠ "" → idpCheck = .ok () →
      getUser (extractUserId ti.authenticated_userid) = some ui →
      tokenRefreshToken req ti ⟨false, none⟩ idpCheck getUser scopeResolve =
        .mint { req with session_data := some (wickedUserInfoToOidcProfile ui) }) ∧
    (extractUserId ti.authenticated_userid ≠ "" → idpCheck = .ok () →
      getUser (extractUserId ti.authenticated_userid) = none →
      ∃ e, tokenRefreshToken req ti ⟨false, none⟩ idpCheck getUser scopeResolve =
        .fail e ∧ e.status = 400 ∧ e.oauthError = some "invalid_request") := by
  refine ⟨?_, ?_, ?_, ?_, ?_⟩
  · refine ⟨failOAuth 500 "server_error"
      "when using the combination of passthrough users and not retrieving the scope from a third party, refresh tokens cannot be used.",
      ?_, rfl, rfl⟩
    simp [tokenRefreshToken]
  · refine ⟨failOAuth 500 "server_error"
      "wicked managed users and passthrough scope URL is not yet implemented (spec unclear).",
      ?_, rfl, rfl⟩
    simp [tokenRefreshToken]
  · intro hsr
    simp [tokenRefreshToken, hsr]
  · intro huid hidp hget
    rw [hidp]
    simp [tokenRefreshToken, huid, hget]
  · intro huid hidp hget
    rw [hidp]
    refine ⟨failOAuth 400 "invalid_request"
      "user associated with refresh token is not a valid user (anymore)", ?_, rfl, rfl⟩
    simp [tokenRefreshToken, huid, hget]

/-- Witness for C7 at concrete inputs, exercising all four modes. -/
theorem tokenRefreshToken_mode_dispatch_witness :
    (∃ e, tokenRefreshToken
      (TokenRequest.mk "refresh_token" "api1" "CID" none .nul (some "R") none none)
      (TokenInfo.mk "T" "R" "sub=u1" "read wicked:admin") ⟨true, none⟩
      (.ok ()) (fun _ => some (WickedUserInfo.mk "u1" none none []))
      (fun _ => .ok (PassthroughScopeResponse.mk true (some "ext:42") (some ["s1"]))) =
      .fail e ∧ e.status = 500 ∧ e.oauthError = some "server_error") ∧
    (tokenRefreshToken
      (TokenRequest.mk "refresh_token" "api1" "CID" none .nul (some "R") none none)
      (TokenInfo.mk "T" "R" "sub=u1" "read wicked:admin") ⟨true, some "https://ext/scope"⟩
      (.ok ()) (fun _ => some (WickedUserInfo.mk "u1" none none []))
      (fun _ => .ok (PassthroughScopeResponse.mk true (some "ext:42") (some ["s1"]))) =
      .mintThenDeleteToken
        { TokenRequest.mk "refresh_token" "api1" "CID" none .nul (some "R") none none with
          grant_type := "password"
          authenticated_userid := some "ext:42"
          scope := jsScopeOfOpt (some ["s1"])
          session_data := some { sub := "sub=u1" } }
        "T") ∧
    (tokenRefreshToken
      (TokenRequest.mk "refresh_token" "api1" "CID" none .nul (some "R") none none)
      (TokenInfo.mk "T" "R" "sub=u1" "read wicked:admin") ⟨false, none⟩
      (.ok ()) (fun _ => some (WickedUserInfo.mk "u1" none none []))
      (fun _ => .ok (PassthroughScopeResponse.mk true (some "ext:42") (some ["s1"]))) =
      .mint { TokenRequest.mk "refresh_token" "api1" "CID" none .nul (some "R") none none with
        session_data := some (wickedUserInfoToOidcProfile (WickedUserInfo.mk "u1" none none [])) }) ∧
    (∃ e, tokenRefreshToken
      (TokenRequest.mk "refresh_token" "api1" "CID" none .nul (some "R") none none)
      (TokenInfo.mk "T" "R" "sub=u1" "read wicked:admin") ⟨false, none⟩
      (.ok ()) (fun _ => none)
      (fun _ => .ok (PassthroughScopeResponse.mk true (some "ext:42") (some ["s1"]))) =
      .fail e ∧ e.status = 400 ∧ e.oauthError = some "invalid_request") := by
  have h1 := tokenRefreshToken_mode_dispatch
    (TokenRequest.mk "refresh_token" "api1" "CID" none .nul (some "R") none none)
    (TokenInfo.mk "T" "R" "sub=u1" "read wicked:admin") (.ok ())
    (fun _ => some (WickedUserInfo.mk "u1" none none []))
    (fun _ => .ok (PassthroughScopeResponse.mk true (some "ext:42") (some ["s1"])))
    "https://ext/scope"
    (PassthroughScopeResponse.mk true (some "ext:42") (some ["s1"]))
    (WickedUserInfo.mk "u1" none none [])
  have h2 := tokenRefreshToken_mode_dispatch
    (TokenRequest.mk "refresh_token" "api1" "CID" none .nul (some "R") none none)
    (TokenInfo.mk "T" "R" "sub=u1" "read wicked:admin") (.ok ())
    (fun _ => none)
    (fun _ => .ok (PassthroughScopeResponse.mk true (some "ext:42") (some ["s1"])))
    "https://ext/scope"
    (PassthroughScopeResponse.mk true (some "ext:42") (some ["s1"]))
    (WickedUserInfo.mk "u1" none none [])
  exact ⟨h1.1, h1.2.2.1 rfl, h1.2.2.2.1 (by decide) rfl rfl,
    h2.2.2.2.2 (by decide) rfl rfl⟩

/-! ## CSRF protection of the state-mutating POST handlers -/

/-- `ERROR_TIMEOUT` (generic-router.ts, line 23). -/
def ERROR_TIMEOUT : Nat := 500

inductive HandlerOutcome where
  /-- `setTimeout(failMessage, delayMs, ...)`; `delayMs = 0` stands for a
  direct `failMessage` call without a timer -/
  | fail (delayMs : Nat) (e : FailErr)
  /-- `renderUserScopesWithMessage` with an error flash (HTTP 200 page) -/
  | renderScopesFlash (message : String)
  /-- the handler continues with its actual work -/
  | proceed
deriving DecidableEq, Repr

/-- Outcome of a CSRF-guarded handler together with the session CSRF token
left behind (the guard consumes it). -/
structure CsrfCheckResult where
  outcome : HandlerOutcome
  sessionCsrfAfter : Option String
deriving DecidableEq, Repr

/-- Modelled from the spec for `utils.getAndDeleteCsrfToken` (utils.ts is
not under src/): the session token is single-use, read and deleted.  This
is the shared inline guard of createVerifyPostHandler (generic-router.ts
161-175), createVerifyEmailPostHandler (320-332), createGrantPostHandler
(1050-1064), createSelectNamespacePostHandler (804-816),
createForgotPasswordPostHandler (242-255) and createEmailMissingPostHandler
(365-377): a missing body token or a mismatch with the consumed session
token fails 403 after the 500 ms ERROR_TIMEOUT.  `none` covers a missing or
empty (falsy) token. -/
def csrfProtectPost (sessionCsrf bodyCsrf : Option String) : CsrfCheckResult :=
  let expectedCsrfToken := sessionCsrf
  if bodyCsrf = none ∨ expectedCsrfToken ≠ bodyCsrf then
    ⟨.fail ERROR_TIMEOUT (failMessage 403 "CSRF validation failed."), none⟩
  else
    ⟨.proceed, none⟩

/-- The `POST /register` handler guard (generic-router.ts, 551-561): it
does not consult the CSRF token at all; it checks the registration nonce
and fails with a plain 400 without any delay. -/
def registerPostNonceCheck (registrationNonce bodyNonce : Option String) :
    HandlerOutcome :=
  match bodyNonce with
  | none => .fail 0 (failMessage 400 "Registration nonce missing.")
  | some nonce =>
    if registrationNonce ≠ some nonce then
      .fail 0 (failMessage 400 "Registration nonce mismatch.")
    else .proceed

/-- The `POST /grants` guard in `GrantManager.revokeUserScope`
(grant-manager.ts, 710-722): the session token is consumed, but a missing
or mismatched body token re-renders the scope list with an error flash
message instead of failing with 403. -/
def revokeUserScopeCsrfCheck (sessionCsrf bodyCsrf : Option String) :
    CsrfCheckResult :=
  if bodyCsrf = none ∨ sessionCsrf ≠ bodyCsrf then
    ⟨.renderScopesFlash "Suspected login forging detected (CSRF protection).", none⟩
  else
    ⟨.proceed, none⟩

/-- Counterexample for C8: a `POST /register` without any token is answered
with a plain 400 (nonce missing) with no delay — not a 403 after 500 ms —
and a `POST /grants` CSRF mismatch re-renders the scope page with a flash
message instead of a 403. -/
theorem csrfProtection_counterexample :
    registerPostNonceCheck (some "N") none =
      .fail 0 (failMessage 400 "Registration nonce missing.") ∧
    (0 : Nat) < 500 ∧
    (failMessage 400 "Registration nonce missing.").status ≠ 403 ∧
    revokeUserScopeCsrfCheck (some "T") none =
      ⟨.renderScopesFlash "Suspected login forging detected (CSRF protection).", none⟩ := by
  exact ⟨rfl, by decide, by decide, rfl⟩

/-- C8 (amended): the verify, verifyemail, grant and selectnamespace POST
handlers consume the single-use session CSRF token and answer a missing or
mismatched token with 403 after the 500 ms ERROR_TIMEOUT; the register POST
is guarded by a registration nonce instead (400, no delay); the grants POST
consumes the token but re-renders the scope list with an error flash. -/
theorem csrfProtection_spec (sessionCsrf bodyCsrf nonce : Option String) :
    (bodyCsrf = none ∨ sessionCsrf ≠ bodyCsrf →
      csrfProtectPost sessionCsrf bodyCsrf =
        ⟨.fail ERROR_TIMEOUT (failMessage 403 "CSRF validation failed."), none⟩ ∧
      ERROR_TIMEOUT = 500) ∧
    (bodyCsrf ≠ none → sessionCsrf = bodyCsrf →
      csrfProtectPost sessionCsrf bodyCsrf = ⟨.proceed, none⟩) ∧
    registerPostNonceCheck nonce none =
      .fail 0 (failMessage 400 "Registration nonce missing.") ∧
    (bodyCsrf = none ∨ sessionCsrf ≠ bodyCsrf →
      revokeUserScopeCsrfCheck sessionCsrf bodyCsrf =
        ⟨.renderScopesFlash "Suspected login forging detected (CSRF protection).", none⟩) := by
  refine ⟨?_, ?_, rfl, ?_⟩
  · intro h
    exact ⟨by simp [csrfProtectPost, h], rfl⟩
  · intro h1 h2
    simp [csrfProtectPost, h1, h2]
  · intro h
    simp [revokeUserScopeCsrfCheck, h]

/-- Witness for C8 (amended) at concrete tokens. -/
theorem csrfProtection_spec_witness :
    (csrfProtectPost (some "T") none =
      ⟨.fail ERROR_TIMEOUT (failMessage 403 "CSRF validation failed."), none⟩ ∧
      ERROR_TIMEOUT = 500) ∧
    csrfProtectPost (some "T") (some "T") = ⟨.proceed, none⟩ ∧
    registerPostNonceCheck (some "N") none =
      .fail 0 (failMessage 400 "Registration nonce missing.") ∧
    revokeUserScopeCsrfCheck (some "T") (some "X") =
      ⟨.renderScopesFlash "Suspected login forging detected (CSRF protection).", none⟩ := by
  have h1 := csrfProtection_spec (some "T") none (some "N")
  have h2 := csrfProtection_spec (some "T") (some "T") (some "N")
  have h3 := csrfProtection_spec (some "T") (some "X") (some "N")
  exact ⟨h1.1 (Or.inl rfl), h2.2.1 (by decide) rfl, h1.2.2.1,
    h3.2.2.2 (Or.inr (by decide))⟩

end PortalAuth
